import Mathlib

/- Shallow embedding of the multi-document consistency and damage-aggregation
   validation engine of the insurance-claim-validator backend
   (app/services/ValidationService.py, app/services/VisionService.py,
   app/services/ClaimValidationService.py, app/schemas/Claim.py).

   Modelling conventions:
   * Python `Optional[...]` fields become `Option`.
   * Python floats become rationals (`Rat`); the engine only forms means,
     clamps and threshold comparisons of values in [0,1].
   * `datetime` values become calendar dates.  Every date the engine parses
     has time-of-day midnight, and `datetime.utcnow()` appears only as the
     upper bound of `claim_submission <= current_date`, where a midnight
     left-hand side makes datetime comparison coincide with date comparison,
     so a date-level `current_date` parameter is faithful.
   * The thread pool of `analyze_multiple_images` merges per-image results in
     completion order; the embedding processes them in list order.  All
     aggregated quantities (mean, any, set unions, per-image exclusion) are
     order-independent, and no theorem below depends on the order of the
     concatenated `detected_damage` list. -/

/-- Truthiness of an optional string, as Python `if s:` on an `Optional[str]`. -/
def strTruthy : Option String → Bool
  | none => false
  | some s => !s.data.isEmpty

/-- Sum of a boolean list as Python `sum(checks)` (True counts as 1). -/
def boolSum (l : List Bool) : Nat := l.countP (fun b => b)

/-- Python `sum(xs)/len(xs) if xs else 0.0`. -/
def listMean (l : List Rat) : Rat := if l = [] then 0 else l.sum / (l.length : Rat)

/- ----------------------------------------------------------------- -/
/- Extracted field-sets (app/schemas/Claim.py)                        -/
/- ----------------------------------------------------------------- -/

structure ExtractedPolicyData where
  policy_number : Option String := none
  policy_start_date : Option String := none
  policy_expiry_date : Option String := none
  insured_name : Option String := none
  vehicle_registration : Option String := none
  chassis_number : Option String := none
  engine_number : Option String := none
  make : Option String := none
  model : Option String := none
  variant : Option String := none
  color : Option String := none
deriving DecidableEq, Repr

structure ExtractedClaimFormData where
  claim_number : Option String := none
  accident_date : Option String := none
  claim_submission_date : Option String := none
  accident_description : Option String := none
  damage_location : Option String := none
  insured_name : Option String := none
  vehicle_registration : Option String := none
deriving DecidableEq, Repr

structure ExtractedLicenseData where
  license_number : Option String := none
  name : Option String := none
  date_of_birth : Option String := none
  expiry_date : Option String := none
  address : Option String := none
deriving DecidableEq, Repr

structure ExtractedKYCData where
  document_number : Option String := none
  name : Option String := none
  date_of_birth : Option String := none
  address : Option String := none
  document_type : Option String := none
deriving DecidableEq, Repr

/- ----------------------------------------------------------------- -/
/- Dates: ValidationService._parse_date                               -/
/- ----------------------------------------------------------------- -/

structure Date where
  year : Nat
  month : Nat
  day : Nat
deriving DecidableEq, Repr

/-- `datetime` comparison restricted to dates (lexicographic year/month/day). -/
def Date.le (a b : Date) : Bool :=
  decide (a.year < b.year) ||
    (decide (a.year = b.year) && (decide (a.month < b.month) ||
      (decide (a.month = b.month) && decide (a.day ≤ b.day))))

/-- Strict `datetime` comparison restricted to dates. -/
def Date.lt (a b : Date) : Bool :=
  decide (a.year < b.year) ||
    (decide (a.year = b.year) && (decide (a.month < b.month) ||
      (decide (a.month = b.month) && decide (a.day < b.day))))

def digitVal (c : Char) : Nat := c.toNat - '0'.toNat

def digitsVal (cs : List Char) : Nat := cs.foldl (fun n c => n * 10 + digitVal c) 0

/-- `str.strip()`: drop leading and trailing whitespace. -/
def trimChars (cs : List Char) : List Char :=
  ((cs.dropWhile Char.isWhitespace).reverse.dropWhile Char.isWhitespace).reverse

/-- strptime `%Y` (TimeRE pattern four digits). -/
def parseY4 (cs : List Char) : Option Nat :=
  if cs.length = 4 ∧ cs.all Char.isDigit then some (digitsVal cs) else none

/-- strptime `%y` (two digits; 0-68 maps to 2000s, 69-99 to 1900s). -/
def parseY2 (cs : List Char) : Option Nat :=
  if cs.length = 2 ∧ cs.all Char.isDigit then
    some (if digitsVal cs ≤ 68 then 2000 + digitsVal cs else 1900 + digitsVal cs)
  else none

/-- strptime `%m` (one or two digits with value 1..12). -/
def parseMonthField (cs : List Char) : Option Nat :=
  if (cs.length = 1 ∨ cs.length = 2) ∧ cs.all Char.isDigit ∧
      1 ≤ digitsVal cs ∧ digitsVal cs ≤ 12 then
    some (digitsVal cs)
  else none

/-- strptime `%d` (one or two digits with value 1..31, or space-padded digit). -/
def parseDayField (cs : List Char) : Option Nat :=
  match cs with
  | [' ', c] => if '1' ≤ c ∧ c ≤ '9' then some (digitVal c) else none
  | _ =>
    if (cs.length = 1 ∨ cs.length = 2) ∧ cs.all Char.isDigit ∧
        1 ≤ digitsVal cs ∧ digitsVal cs ≤ 31 then
      some (digitsVal cs)
    else none

def isLeapYear (y : Nat) : Bool := y % 4 == 0 && (y % 100 != 0 || y % 400 == 0)

def daysInMonth (y m : Nat) : Nat :=
  if m = 2 then (if isLeapYear y then 29 else 28)
  else if m = 4 ∨ m = 6 ∨ m = 9 ∨ m = 11 then 30
  else 31

/-- `datetime(year, month, day)` construction: raises outside the calendar. -/
def mkValidDate (y m d : Nat) : Option Date :=
  if 1 ≤ y ∧ y ≤ 9999 ∧ 1 ≤ m ∧ m ≤ 12 ∧ 1 ≤ d ∧ d ≤ daysInMonth y m then
    some ⟨y, m, d⟩
  else none

/-- One strptime attempt for a `year sep month sep day` format. -/
def tryFormatYMD (sep : Char) (yearField : List Char → Option Nat) (cs : List Char) :
    Option Date :=
  match cs.splitOn sep with
  | [ys, ms, ds] =>
    match yearField ys, parseMonthField ms, parseDayField ds with
    | some y, some m, some d => mkValidDate y m d
    | _, _, _ => none
  | _ => none

/-- One strptime attempt for a `day sep month sep year` format. -/
def tryFormatDMY (sep : Char) (yearField : List Char → Option Nat) (cs : List Char) :
    Option Date :=
  match cs.splitOn sep with
  | [ds, ms, ys] =>
    match parseDayField ds, parseMonthField ms, yearField ys with
    | some d, some m, some y => mkValidDate y m d
    | _, _, _ => none
  | _ => none

/-- ValidationService._parse_date: try the fixed format list in order
    (`%Y-%m-%d`, `%d-%m-%Y`, `%d/%m/%Y`, `%Y/%m/%d`, `%d-%m-%y`, `%d/%m/%y`);
    the first format that parses wins, otherwise `none`. -/
def parseDate (s : String) : Option Date :=
  if s.data.isEmpty then none
  else
    let t := trimChars s.data
    (tryFormatYMD '-' parseY4 t) <|> (tryFormatDMY '-' parseY4 t) <|>
    (tryFormatDMY '/' parseY4 t) <|> (tryFormatYMD '/' parseY4 t) <|>
    (tryFormatDMY '-' parseY2 t) <|> (tryFormatDMY '/' parseY2 t)

def pad2 (n : Nat) : String := if n < 10 then "0" ++ toString n else toString n

def pad4 (n : Nat) : String :=
  if n < 10 then "000" ++ toString n
  else if n < 100 then "00" ++ toString n
  else if n < 1000 then "0" ++ toString n
  else toString n

/-- `datetime.date()` rendering, `YYYY-MM-DD`. -/
def dateISO (d : Date) : String := pad4 d.year ++ "-" ++ pad2 d.month ++ "-" ++ pad2 d.day

/- ----------------------------------------------------------------- -/
/- ValidationService.validate_dates                                   -/
/- ----------------------------------------------------------------- -/

structure DateValidationResult where
  is_valid : Bool
  confidence : Rat
  policy_date_check : Option Bool
  claim_date_check : Option Bool
  license_expiry_check : Option Bool
  mismatches : Option (List String)
  message : String
deriving DecidableEq, Repr

/-- `self._parse_date(policy_data.policy_start_date) if policy_data and
    policy_data.policy_start_date else None`. -/
def parsedPolicyStart (p : Option ExtractedPolicyData) : Option Date :=
  match p with
  | some pd => if strTruthy pd.policy_start_date then parseDate (pd.policy_start_date.getD "") else none
  | none => none

def parsedPolicyExpiry (p : Option ExtractedPolicyData) : Option Date :=
  match p with
  | some pd => if strTruthy pd.policy_expiry_date then parseDate (pd.policy_expiry_date.getD "") else none
  | none => none

def parsedAccident (c : Option ExtractedClaimFormData) : Option Date :=
  match c with
  | some cd => if strTruthy cd.accident_date then parseDate (cd.accident_date.getD "") else none
  | none => none

def parsedClaimSubmission (c : Option ExtractedClaimFormData) : Option Date :=
  match c with
  | some cd => if strTruthy cd.claim_submission_date then parseDate (cd.claim_submission_date.getD "") else none
  | none => none

def parsedLicenseExpiry (l : Option ExtractedLicenseData) : Option Date :=
  match l with
  | some ld => if strTruthy ld.expiry_date then parseDate (ld.expiry_date.getD "") else none
  | none => none

/-- Step 1 of validate_dates: the `Check for missing dates` block.  For each
    present field-set a descriptive string is appended when the raw date
    string is falsy (absent or empty). -/
def missingDateStrings (policy_data : Option ExtractedPolicyData)
    (claim_form_data : Option ExtractedClaimFormData)
    (license_data : Option ExtractedLicenseData) : List String :=
  (match policy_data with
   | some pd =>
     (if !strTruthy pd.policy_start_date then ["Policy start date is missing"] else []) ++
     (if !strTruthy pd.policy_expiry_date then ["Policy expiry date is missing"] else [])
   | none => []) ++
  (match claim_form_data with
   | some cd =>
     (if !strTruthy cd.accident_date then ["Accident date is missing"] else []) ++
     (if !strTruthy cd.claim_submission_date then ["Claim submission date is missing"] else [])
   | none => []) ++
  (match license_data with
   | some ld => if !strTruthy ld.expiry_date then ["License expiry date is missing"] else []
   | none => [])

/-- Policy rule of validate_dates: result field, `checks` contribution and
    mismatch contribution.  `Policy Start <= Accident Date <= Policy Expiry`;
    when policy data exists but one of the three dates did not parse, the
    result field is set to `false` with no `checks` contribution. -/
def policyRuleEval (policyPresent : Bool)
    (policy_start policy_expiry accident_date : Option Date) :
    Option Bool × List Bool × List String :=
  match policy_start, policy_expiry, accident_date with
  | some ps, some pe, some ad =>
    if Date.le ps ad && Date.le ad pe then (some true, [true], [])
    else
      (some false, [false],
        if Date.lt ad ps then
          ["Accident date (" ++ dateISO ad ++ ") is before policy start (" ++ dateISO ps ++ ")"]
        else if Date.lt pe ad then
          ["Accident date (" ++ dateISO ad ++ ") is after policy expiry (" ++ dateISO pe ++ ")"]
        else [])
  | _, _, _ => if policyPresent then (some false, [], []) else (none, [], [])

/-- Claim rule of validate_dates:
    `Accident Date <= Claim Submission <= Current Date`; only evaluated when
    both dates parsed, otherwise the result field stays `none`. -/
def claimRuleEval (accident_date claim_submission : Option Date) (current_date : Date) :
    Option Bool × List Bool × List String :=
  match accident_date, claim_submission with
  | some ad, some cs =>
    if Date.le ad cs && Date.le cs current_date then (some true, [true], [])
    else
      (some false, [false],
        if Date.lt cs ad then
          ["Claim submission (" ++ dateISO cs ++ ") is before accident date (" ++ dateISO ad ++ ")"]
        else if Date.lt current_date cs then
          ["Claim submission (" ++ dateISO cs ++ ") is in the future"]
        else [])
  | _, _ => (none, [], [])

/-- License rule of validate_dates: `Accident Date <= License Expiry`; only
    evaluated when both dates parsed, otherwise the result field stays `none`. -/
def licenseRuleEval (accident_date license_expiry : Option Date) :
    Option Bool × List Bool × List String :=
  match accident_date, license_expiry with
  | some ad, some le =>
    if Date.le ad le then (some true, [true], [])
    else
      (some false, [false],
        ["License expired before accident: expiry (" ++ dateISO le ++ ") < accident (" ++
          dateISO ad ++ ")"])
  | _, _ => (none, [], [])

/-- The accumulated `mismatches` list of validate_dates: the Step-1 missing
    strings followed by the rule-violation strings in evaluation order. -/
def dateMismatches (policy_data : Option ExtractedPolicyData)
    (claim_form_data : Option ExtractedClaimFormData)
    (license_data : Option ExtractedLicenseData) (current_date : Date) : List String :=
  missingDateStrings policy_data claim_form_data license_data ++
    (policyRuleEval policy_data.isSome (parsedPolicyStart policy_data)
      (parsedPolicyExpiry policy_data) (parsedAccident claim_form_data)).2.2 ++
    (claimRuleEval (parsedAccident claim_form_data) (parsedClaimSubmission claim_form_data)
      current_date).2.2 ++
    (licenseRuleEval (parsedAccident claim_form_data) (parsedLicenseExpiry license_data)).2.2

/-- The accumulated `checks` list of validate_dates. -/
def dateChecks (policy_data : Option ExtractedPolicyData)
    (claim_form_data : Option ExtractedClaimFormData)
    (license_data : Option ExtractedLicenseData) (current_date : Date) : List Bool :=
  (policyRuleEval policy_data.isSome (parsedPolicyStart policy_data)
    (parsedPolicyExpiry policy_data) (parsedAccident claim_form_data)).2.1 ++
  (claimRuleEval (parsedAccident claim_form_data) (parsedClaimSubmission claim_form_data)
    current_date).2.1 ++
  (licenseRuleEval (parsedAccident claim_form_data) (parsedLicenseExpiry license_data)).2.1

/-- ValidationService.validate_dates (current_date stands for
    `datetime.utcnow()`). -/
def validate_dates (policy_data : Option ExtractedPolicyData)
    (claim_form_data : Option ExtractedClaimFormData)
    (license_data : Option ExtractedLicenseData) (current_date : Date) :
    DateValidationResult :=
  let mismatches := dateMismatches policy_data claim_form_data license_data current_date
  let checks := dateChecks policy_data claim_form_data license_data current_date
  let confidence := if checks = [] then (0 : Rat) else (boolSum checks : Rat) / (checks.length : Rat)
  let is_valid := decide (mismatches = []) && decide (confidence ≥ 8/10)
  { is_valid := is_valid
    confidence := confidence
    policy_date_check := (policyRuleEval policy_data.isSome (parsedPolicyStart policy_data)
      (parsedPolicyExpiry policy_data) (parsedAccident claim_form_data)).1
    claim_date_check := (claimRuleEval (parsedAccident claim_form_data)
      (parsedClaimSubmission claim_form_data) current_date).1
    license_expiry_check := (licenseRuleEval (parsedAccident claim_form_data)
      (parsedLicenseExpiry license_data)).1
    mismatches := if mismatches = [] then none else some mismatches
    message :=
      if is_valid then "All dates are valid"
      else "Date validation issues: " ++ toString mismatches.length }

/-- The `mismatches` of a date result as the list Python accumulated
    (`None` encodes the empty list). -/
def dateMismatchList (r : DateValidationResult) : List String := r.mismatches.getD []

/- ----------------------------------------------------------------- -/
/- Name similarity: difflib.SequenceMatcher on normalized names       -/
/- ----------------------------------------------------------------- -/

/-- All non-empty matching blocks `(i, j, k)` of two sequences, listed with
    size `k` descending, then lower index `i` ascending, then `j` ascending —
    the preference order of `SequenceMatcher.find_longest_match` (no junk:
    the inputs here are short normalized names, so autojunk never fires). -/
def blockCands (a b : List Char) : List (Nat × Nat × Nat) :=
  ((List.range (min a.length b.length + 1)).reverse).flatMap (fun k =>
    (List.range (a.length + 1 - k)).flatMap (fun i =>
      (List.range (b.length + 1 - k)).filterMap (fun j =>
        if k ≠ 0 ∧ (a.drop i).take k = (b.drop j).take k then some (i, j, k) else none)))

/-- `SequenceMatcher.find_longest_match` over the whole strings. -/
def longestMatch (a b : List Char) : Nat × Nat × Nat := (blockCands a b).headD (0, 0, 0)

/-- Total size of the matching blocks of `SequenceMatcher.get_matching_blocks`:
    the Ratcliff-Obershelp recursion around the longest match.  The fuel
    argument dominates the recursion depth (each recursive call strictly
    shrinks the combined length, and the top call supplies the combined
    length as fuel), so the fuel never runs out. -/
def matchTotalFuel : Nat → List Char → List Char → Nat
  | 0, _, _ => 0
  | fuel + 1, a, b =>
    let ijk := longestMatch a b
    if ijk.2.2 = 0 then 0
    else
      matchTotalFuel fuel (a.take ijk.1) (b.take ijk.2.1) + ijk.2.2 +
        matchTotalFuel fuel (a.drop (ijk.1 + ijk.2.2)) (b.drop (ijk.2.1 + ijk.2.2))

def matchTotal (a b : List Char) : Nat := matchTotalFuel (a.length + b.length) a b

/-- `SequenceMatcher.ratio()`: `2*M / T`, and 1 when both sequences are empty. -/
def seqRatio (a b : List Char) : Rat :=
  if a.length + b.length = 0 then 1
  else (2 * matchTotal a b : Rat) / ((a.length + b.length : Nat) : Rat)

/-- ValidationService._normalize_name: lowercase, split on whitespace,
    rejoin with single spaces. -/
def normalize_name (name : String) : String :=
  if name.data.isEmpty then ""
  else
    ⟨[' '].intercalate (((name.data.map Char.toLower).splitOnP Char.isWhitespace).filter
      (· ≠ []))⟩

/-- ValidationService._name_similarity. -/
def name_similarity (name1 name2 : String) : Rat :=
  if name1.data.isEmpty ∨ name2.data.isEmpty then 0
  else seqRatio (normalize_name name1).data (normalize_name name2).data

/- ----------------------------------------------------------------- -/
/- ValidationService.validate_names                                   -/
/- ----------------------------------------------------------------- -/

structure NameValidationResult where
  is_valid : Bool
  confidence : Rat
  matched_names : List String
  mismatches : Option (List String)
  message : String
deriving DecidableEq, Repr

/-- The labeled names list of validate_names.  The license name is excluded
    (commented out in the source: the driver may differ from the insured). -/
def presentNames (policy_name claim_form_name license_name kyc_name : Option String) :
    List (String × String) :=
  (if strTruthy policy_name then [("policy", policy_name.getD "")] else []) ++
  (if strTruthy claim_form_name then [("claim_form", claim_form_name.getD "")] else []) ++
  (if strTruthy kyc_name then [("kyc", kyc_name.getD "")] else [])

/-- All unordered pairs in loop order (`for i ...: for j in range(i+1, ...)`). -/
def namePairs : List (String × String) → List ((String × String) × (String × String))
  | [] => []
  | x :: xs => (xs.map (fun y => (x, y))) ++ namePairs xs

/-- A `matched_names` entry: `f"{doc}: {name}"`. -/
def matchEntry (dn : String × String) : String := dn.1 ++ ": " ++ dn.2

/-- Round half to even, as Python float formatting does. -/
def roundHalfEven (q : Rat) : Int :=
  if q - q.floor < 1/2 then q.floor
  else if q - q.floor > 1/2 then q.floor + 1
  else if q.floor % 2 = 0 then q.floor else q.floor + 1

/-- `f"{q:.2%}"` for a nonnegative rational. -/
def formatPercent2 (q : Rat) : String :=
  let n := (roundHalfEven (q * 10000)).toNat
  toString (n / 100) ++ "." ++ pad2 (n % 100) ++ "%"

/-- A `mismatches` entry of validate_names:
    `f"{doc1} ({name1}) vs {doc2} ({name2}): {similarity:.2%}"`. -/
def nameMismatchEntry (pr : (String × String) × (String × String)) : String :=
  pr.1.1 ++ " (" ++ pr.1.2 ++ ") vs " ++ pr.2.1 ++ " (" ++ pr.2.2 ++ "): " ++
    formatPercent2 (name_similarity pr.1.2 pr.2.2)

/-- The `similarities` list of validate_names. -/
def nameSimilarities (names : List (String × String)) : List Rat :=
  (namePairs names).map (fun pr => name_similarity pr.1.2 pr.2.2)

/-- The `matched_names` accumulation of validate_names (before `list(set(...))`):
    each pair with similarity at or above the 0.85 threshold records both
    labeled names. -/
def matchedNamesRaw (names : List (String × String)) : List String :=
  (namePairs names).flatMap (fun pr =>
    if name_similarity pr.1.2 pr.2.2 ≥ 85/100 then [matchEntry pr.1, matchEntry pr.2] else [])

/-- The `mismatches` accumulation of validate_names: each pair that is not a
    match (elif) and falls below the 0.7 threshold records a formatted entry. -/
def nameMismatches (names : List (String × String)) : List String :=
  (namePairs names).filterMap (fun pr =>
    if name_similarity pr.1.2 pr.2.2 ≥ 85/100 then none
    else if name_similarity pr.1.2 pr.2.2 < 7/10 then some (nameMismatchEntry pr)
    else none)

/-- ValidationService.validate_names.  `matched_names` is built with
    `list(set(...))`; the Python set has unspecified order, modelled as the
    append order with duplicates removed (same membership). -/
def validate_names (policy_name claim_form_name license_name kyc_name : Option String) :
    NameValidationResult :=
  let names := presentNames policy_name claim_form_name license_name kyc_name
  if names.length < 2 then
    { is_valid := false
      confidence := 0
      matched_names := []
      mismatches := none
      message := "Insufficient documents for name validation" }
  else
    let avg_similarity := listMean (nameSimilarities names)
    let is_valid := decide (avg_similarity ≥ 8/10) && decide ((nameMismatches names).length = 0)
    { is_valid := is_valid
      confidence := avg_similarity
      matched_names := (matchedNamesRaw names).dedup
      mismatches := if nameMismatches names = [] then none else some (nameMismatches names)
      message :=
        if is_valid then "All names match"
        else "Name mismatches found: " ++ toString (nameMismatches names).length }

/- ----------------------------------------------------------------- -/
/- ValidationService.validate_vehicle                                 -/
/- ----------------------------------------------------------------- -/

structure VehicleValidationResult where
  is_valid : Bool
  confidence : Rat
  registration_match : Option Bool
  chassis_match : Option Bool
  engine_match : Option Bool
  make_model_match : Option Bool
  mismatches : Option (List String)
  message : String
deriving DecidableEq, Repr

/-- `reg.replace(" ", "").upper()`. -/
def normalizeReg (s : String) : String := ⟨(s.data.filter (· ≠ ' ')).map Char.toUpper⟩

/-- The boolean `checks` list collected by validate_vehicle when both
    documents are present: the registration comparison (when both
    registrations are truthy) followed by the unconditional `true` of the
    make/model presence check. -/
def vehicleChecks (pd : ExtractedPolicyData) (cd : ExtractedClaimFormData) : List Bool :=
  (if strTruthy pd.vehicle_registration && strTruthy cd.vehicle_registration then
    [decide (normalizeReg (pd.vehicle_registration.getD "") =
      normalizeReg (cd.vehicle_registration.getD ""))]
  else []) ++
  (if strTruthy pd.make && strTruthy pd.model then [true] else [])

/-- The `mismatches` list of validate_vehicle: one formatted entry when both
    registrations are truthy and their normalized forms differ. -/
def vehicleMismatches (pd : ExtractedPolicyData) (cd : ExtractedClaimFormData) : List String :=
  if (strTruthy pd.vehicle_registration && strTruthy cd.vehicle_registration) &&
      !(decide (normalizeReg (pd.vehicle_registration.getD "") =
        normalizeReg (cd.vehicle_registration.getD ""))) then
    ["Registration mismatch: " ++ normalizeReg (pd.vehicle_registration.getD "") ++ " vs " ++
      normalizeReg (cd.vehicle_registration.getD "")]
  else []

/-- ValidationService.validate_vehicle. -/
def validate_vehicle (policy_data : Option ExtractedPolicyData)
    (claim_form_data : Option ExtractedClaimFormData) : VehicleValidationResult :=
  match policy_data, claim_form_data with
  | some pd, some cd =>
    let regBoth := strTruthy pd.vehicle_registration && strTruthy cd.vehicle_registration
    let reg_policy := normalizeReg (pd.vehicle_registration.getD "")
    let reg_claim := normalizeReg (cd.vehicle_registration.getD "")
    let reg_match : Bool := reg_policy = reg_claim
    let mismatches := vehicleMismatches pd cd
    let checks := vehicleChecks pd cd
    let confidence := if checks = [] then (0 : Rat) else (boolSum checks : Rat) / (checks.length : Rat)
    let is_valid := decide (mismatches = []) && decide (confidence ≥ 8/10)
    { is_valid := is_valid
      confidence := confidence
      registration_match := if regBoth then some reg_match else none
      chassis_match := none
      engine_match := none
      make_model_match := if strTruthy pd.make && strTruthy pd.model then some true else none
      mismatches := if mismatches = [] then none else some mismatches
      message :=
        if is_valid then "Vehicle information matches"
        else "Vehicle mismatches: " ++ toString mismatches.length }
  | _, _ =>
    { is_valid := false
      confidence := 0
      registration_match := none
      chassis_match := none
      engine_match := none
      make_model_match := none
      mismatches := none
      message := "Missing policy or claim form data for vehicle validation" }

/- ----------------------------------------------------------------- -/
/- VisionService                                                       -/
/- ----------------------------------------------------------------- -/

structure DamageItem where
  part : String
  severity : String
deriving DecidableEq, Repr

/-- The JSON `confidence` field of an analyzer reply, as seen by
    `float(confidence) if confidence is not None else 0.0`:
    a number (or numeric string), a value `float()` rejects, or absent/null. -/
inductive ConfVal
  | num (q : Rat)
  | nonNumeric
  | absent
deriving DecidableEq, Repr

/-- The parsed JSON object of one successful analyzer reply; each field may
    be absent (`data.get` supplies defaults at the use sites). -/
structure AnalyzerData where
  detected_damage : Option (List DamageItem) := none
  damage_locations : Option (List String) := none
  likely_damaged_parts : Option (List String) := none
  matches_description : Option Bool := none
  confidence : ConfVal := ConfVal.absent
deriving DecidableEq, Repr

/-- The observable behavior of the external per-image analyzer call:
    an HTTP error status, any other exception (network failure, timeout,
    malformed/non-JSON content, missing `choices`), or a parsed JSON reply. -/
inductive AnalyzerResponse
  | httpError (status : Nat) (text : String)
  | exn (msg : String)
  | ok (data : AnalyzerData)
deriving DecidableEq, Repr

/-- The fallback `data` dict returned on a per-image failure. -/
def fallbackData : AnalyzerData :=
  { detected_damage := some []
    damage_locations := some []
    likely_damaged_parts := some []
    matches_description := some false
    confidence := ConfVal.num 0 }

/-- The dictionary `_analyze_damage_sync` returns. -/
structure SyncOutcome where
  success : Bool
  data : AnalyzerData
  confidence : Rat
  error : Option String
deriving DecidableEq, Repr

/-- `max(0.0, min(1.0, x))`. -/
def clampUnit (q : Rat) : Rat := max 0 (min 1 q)

/-- VisionService._analyze_damage_sync, as a function of the analyzer's
    behavior for the image (image bytes and prompt abstracted away).
    A non-numeric confidence makes `float(...)` raise inside the `try`
    block, so the whole image analysis becomes a failure outcome. -/
def analyze_damage_sync (resp : AnalyzerResponse) : SyncOutcome :=
  match resp with
  | .httpError status text =>
    { success := false
      data := fallbackData
      confidence := 0
      error := some ("Groq Vision API error: " ++ toString status ++ " - " ++ text) }
  | .exn msg => { success := false, data := fallbackData, confidence := 0, error := some msg }
  | .ok d =>
    match d.confidence with
    | ConfVal.num q =>
      { success := true, data := d, confidence := clampUnit q, error := none }
    | ConfVal.absent =>
      { success := true, data := d, confidence := clampUnit 0, error := none }
    | ConfVal.nonNumeric =>
      { success := false
        data := fallbackData
        confidence := 0
        error := some "could not convert confidence to float" }

structure DamageDetectionResult where
  detected_damage : List DamageItem
  damage_locations : List String
  confidence : Rat
  matches_description : Bool
  likely_damaged_parts : List String
  unlikely_damaged_parts : Option (List String) := none
deriving DecidableEq, Repr

/-- One image submitted to `analyze_multiple_images`: the analyzer's
    behavior for it plus the optional angle description (the image bytes
    and the location fallback only shape the prompt, not the merge). -/
structure VisionImage where
  response : AnalyzerResponse
  angle_description : Option String := none
deriving DecidableEq, Repr

/-- The mutable accumulators of the `as_completed` loop. -/
structure AggState where
  all_damage : List DamageItem
  all_locations : List String
  all_parts : List String
  confidences : List Rat
  matchFlags : List Bool
deriving DecidableEq, Repr

/-- One iteration of the collection loop: failures leave the state alone. -/
def aggStep (st : AggState) (r : SyncOutcome) : AggState :=
  if r.success then
    { all_damage := st.all_damage ++ r.data.detected_damage.getD []
      all_locations := st.all_locations ++ r.data.damage_locations.getD []
      all_parts := st.all_parts ++ r.data.likely_damaged_parts.getD []
      confidences := st.confidences ++ [r.confidence]
      matchFlags := st.matchFlags ++ [r.data.matches_description.getD false] }
  else st

/-- VisionService.analyze_multiple_images.  With an empty image list,
    `ThreadPoolExecutor(max_workers=min(0, 5))` raises
    `ValueError("max_workers must be greater than 0")` before any analysis
    runs, modelled as the `Except.error` branch.  The Python sets
    `all_locations`/`all_parts` have unspecified order; they are modelled as
    the accumulation order with duplicates removed (same membership). -/
def analyze_multiple_images (images : List VisionImage) :
    Except String DamageDetectionResult :=
  if images.length = 0 then Except.error "max_workers must be greater than 0"
  else
    let outcomes := images.map (fun im => analyze_damage_sync im.response)
    let st := outcomes.foldl aggStep ⟨[], [], [], [], []⟩
    Except.ok
      { detected_damage := st.all_damage
        damage_locations := st.all_locations.dedup
        confidence := listMean st.confidences
        matches_description := st.matchFlags.any (fun b => b)
        likely_damaged_parts := st.all_parts.dedup
        unlikely_damaged_parts := none }

/- ----------------------------------------------------------------- -/
/- ClaimValidationService.validate_claim (validation core)            -/
/- ----------------------------------------------------------------- -/

structure ValidationSummary where
  overall_valid : Bool
  overall_confidence : Rat
  name_validation : NameValidationResult
  vehicle_validation : VehicleValidationResult
  date_validation : DateValidationResult
  damage_validation : Option DamageDetectionResult
  issues : List String
  warnings : List String
deriving DecidableEq, Repr

/-- One stored claim image as the orchestrator sees it: whether its bytes
    are readable (`local_path` present and the file exists), and the
    analyzer call data for it. -/
structure ClaimImage where
  readable : Bool
  image : VisionImage
deriving DecidableEq, Repr

/-- The per-result entries of the `validations` list: the `is_valid`
    attribute when the object has one (`hasattr`), and the `confidence`.
    `DamageDetectionResult` carries no `is_valid` attribute. -/
def validationEntries (n : NameValidationResult) (v : VehicleValidationResult)
    (d : DateValidationResult) (dm : Option DamageDetectionResult) :
    List (Option Bool × Rat) :=
  [(some n.is_valid, n.confidence), (some v.is_valid, v.confidence),
   (some d.is_valid, d.confidence)] ++
  (match dm with
   | some r => [(none, r.confidence)]
   | none => [])

/-- The damage-validation step of validate_claim: run only when the claim
    has images and a claim-form record; only images with readable bytes are
    submitted, and the whole vision step runs inside `try/except`, so a
    raising call leaves the result `None`. -/
def damageValidationOf (claim_form_data : Option ExtractedClaimFormData)
    (images : List ClaimImage) : Option DamageDetectionResult :=
  if images ≠ [] ∧ claim_form_data.isSome then
    if (images.filter (·.readable)).map (·.image) ≠ [] then
      match analyze_multiple_images ((images.filter (·.readable)).map (·.image)) with
      | Except.ok r => some r
      | Except.error _ => none
    else none
  else none

/-- The validation core of ClaimValidationService.validate_claim, starting
    after the documents have been decoded into the four optional field-sets
    and ending with the assembled ValidationSummary (storage omitted). -/
def validateClaimCore (policy_data : Option ExtractedPolicyData)
    (claim_form_data : Option ExtractedClaimFormData)
    (license_data : Option ExtractedLicenseData) (kyc_data : Option ExtractedKYCData)
    (images : List ClaimImage) (current_date : Date) : ValidationSummary :=
  let name_validation :=
    validate_names (policy_data.bind (·.insured_name)) (claim_form_data.bind (·.insured_name))
      none (kyc_data.bind (·.name))
  let vehicle_validation := validate_vehicle policy_data claim_form_data
  let date_validation := validate_dates policy_data claim_form_data license_data current_date
  let damage_validation := damageValidationOf claim_form_data images
  let entries := validationEntries name_validation vehicle_validation date_validation
    damage_validation
  let overall_valid := (entries.filterMap Prod.fst).all (fun b => b)
  let overall_confidence :=
    if entries = [] then (0 : Rat) else (entries.map Prod.snd).sum / (entries.length : Rat)
  let issues :=
    (if !name_validation.is_valid then
      ["Name validation failed: " ++ name_validation.message] else []) ++
    (if !vehicle_validation.is_valid then
      ["Vehicle validation failed: " ++ vehicle_validation.message] else []) ++
    (if !date_validation.is_valid then
      ["Date validation failed: " ++ date_validation.message] else [])
  let warnings :=
    match damage_validation with
    | some dm =>
      if !dm.matches_description then ["Damage in images may not match accident description"]
      else []
    | none => []
  { overall_valid := overall_valid
    overall_confidence := overall_confidence
    name_validation := name_validation
    vehicle_validation := vehicle_validation
    date_validation := date_validation
    damage_validation := damage_validation
    issues := issues
    warnings := warnings }

/- ----------------------------------------------------------------- -/
/- Helper lemmas                                                      -/
/- ----------------------------------------------------------------- -/

theorem listMean_unit (l : List Rat) (h : ∀ x ∈ l, 0 ≤ x ∧ x ≤ 1) :
    0 ≤ listMean l ∧ listMean l ≤ 1 := by
  unfold listMean
  by_cases hl : l = []
  · simp [hl]
  · rw [if_neg hl]
    have hlen : 0 < (l.length : Rat) := by
      exact_mod_cast List.length_pos.mpr hl
    refine ⟨div_nonneg (List.sum_nonneg fun x hx => (h x hx).1) (le_of_lt hlen), ?_⟩
    rw [div_le_one hlen]
    have hs := List.sum_le_card_nsmul l 1 (fun x hx => (h x hx).2)
    simpa using hs

theorem boolMean_unit (checks : List Bool) :
    0 ≤ (if checks = [] then (0 : Rat) else (boolSum checks : Rat) / (checks.length : Rat)) ∧
    (if checks = [] then (0 : Rat) else (boolSum checks : Rat) / (checks.length : Rat)) ≤ 1 := by
  by_cases hl : checks = []
  · simp [hl]
  · rw [if_neg hl]
    have hlen : 0 < (checks.length : Rat) := by
      exact_mod_cast List.length_pos.mpr hl
    refine ⟨div_nonneg (by positivity) (le_of_lt hlen), ?_⟩
    rw [div_le_one hlen]
    exact_mod_cast List.countP_le_length (fun b => b)

theorem longestMatch_bounds (a b : List Char) (h : (longestMatch a b).2.2 ≠ 0) :
    (longestMatch a b).1 + (longestMatch a b).2.2 ≤ a.length ∧
    (longestMatch a b).2.1 + (longestMatch a b).2.2 ≤ b.length := by
  have hmem : longestMatch a b ∈ blockCands a b := by
    unfold longestMatch at h ⊢
    cases hc : blockCands a b with
    | nil => rw [hc] at h; simp at h
    | cons c t => simp
  obtain ⟨k, hk, hrest⟩ := List.mem_flatMap.mp hmem
  obtain ⟨i, hi, hj⟩ := List.mem_flatMap.mp hrest
  obtain ⟨j, hjr, hjeq⟩ := List.mem_filterMap.mp hj
  have hk2 : k ≤ min a.length b.length := by
    have := List.mem_range.mp (List.mem_reverse.mp hk)
    omega
  have hi2 : i < a.length + 1 - k := List.mem_range.mp hi
  have hj2 : j < b.length + 1 - k := List.mem_range.mp hjr
  by_cases hcond : k ≠ 0 ∧ (a.drop i).take k = (b.drop j).take k
  · rw [if_pos hcond] at hjeq
    have : (i, j, k) = longestMatch a b := Option.some.inj hjeq
    rw [← this]
    simp only []
    omega
  · rw [if_neg hcond] at hjeq
    exact absurd hjeq (by simp)

theorem matchTotalFuel_le (fuel : Nat) :
    ∀ a b : List Char, matchTotalFuel fuel a b ≤ min a.length b.length := by
  induction fuel with
  | zero => intro a b; simp [matchTotalFuel]
  | succ n ih =>
    intro a b
    rw [matchTotalFuel]
    by_cases hk : (longestMatch a b).2.2 = 0
    · rw [if_pos hk]; omega
    · rw [if_neg hk]
      obtain ⟨ha, hb⟩ := longestMatch_bounds a b hk
      have h1 := ih (a.take (longestMatch a b).1) (b.take (longestMatch a b).2.1)
      have h2 := ih (a.drop ((longestMatch a b).1 + (longestMatch a b).2.2))
        (b.drop ((longestMatch a b).2.1 + (longestMatch a b).2.2))
      simp only [List.length_take, List.length_drop] at h1 h2
      omega

theorem matchTotal_le (a b : List Char) : matchTotal a b ≤ min a.length b.length :=
  matchTotalFuel_le (a.length + b.length) a b

theorem seqRatio_unit (a b : List Char) : 0 ≤ seqRatio a b ∧ seqRatio a b ≤ 1 := by
  unfold seqRatio
  by_cases h : a.length + b.length = 0
  · rw [if_pos h]; norm_num
  · rw [if_neg h]
    have hpos : 0 < ((a.length + b.length : Nat) : Rat) := by
      exact_mod_cast Nat.pos_of_ne_zero h
    refine ⟨div_nonneg (by positivity) (le_of_lt hpos), ?_⟩
    rw [div_le_one hpos]
    have := matchTotal_le a b
    have : 2 * matchTotal a b ≤ a.length + b.length := by omega
    exact_mod_cast this

theorem name_similarity_unit (n1 n2 : String) :
    0 ≤ name_similarity n1 n2 ∧ name_similarity n1 n2 ≤ 1 := by
  unfold name_similarity
  by_cases h : n1.data.isEmpty = true ∨ n2.data.isEmpty = true
  · rw [if_pos h]; norm_num
  · rw [if_neg h]
    exact seqRatio_unit _ _

/-- The accumulators after the collection loop, in terms of the successful
    outcomes. -/
theorem foldl_aggStep (outs : List SyncOutcome) (st : AggState) :
    (outs.foldl aggStep st).all_damage =
      st.all_damage ++ (outs.filter (·.success)).flatMap (fun o => o.data.detected_damage.getD []) ∧
    (outs.foldl aggStep st).all_locations =
      st.all_locations ++ (outs.filter (·.success)).flatMap (fun o => o.data.damage_locations.getD []) ∧
    (outs.foldl aggStep st).all_parts =
      st.all_parts ++ (outs.filter (·.success)).flatMap (fun o => o.data.likely_damaged_parts.getD []) ∧
    (outs.foldl aggStep st).confidences =
      st.confidences ++ (outs.filter (·.success)).map (·.confidence) ∧
    (outs.foldl aggStep st).matchFlags =
      st.matchFlags ++ (outs.filter (·.success)).map (fun o => o.data.matches_description.getD false) := by
  induction outs generalizing st with
  | nil => simp
  | cons r rest ih =>
    obtain ⟨e1, e2, e3, e4, e5⟩ := ih (aggStep st r)
    by_cases hs : r.success
    · simp only [List.foldl_cons, List.filter_cons, hs, if_true]
      simp only [e1, e2, e3, e4, e5]
      simp [aggStep, hs, List.append_assoc]
    · have hst : aggStep st r = st := by simp [aggStep, hs]
      rw [List.foldl_cons, hst, List.filter_cons]
      simp only [hs, Bool.false_eq_true, if_false]
      exact ih st

theorem namePairs_ne_nil (l : List (String × String)) (h : 2 ≤ l.length) :
    namePairs l ≠ [] := by
  cases l with
  | nil => simp at h
  | cons x t =>
    cases t with
    | nil => simp at h
    | cons y t2 => simp [namePairs]

theorem clampUnit_unit (q : Rat) : 0 ≤ clampUnit q ∧ clampUnit q ≤ 1 :=
  ⟨le_max_left 0 _, max_le (by norm_num) (min_le_left 1 q)⟩

theorem analyze_damage_sync_unit (resp : AnalyzerResponse) :
    0 ≤ (analyze_damage_sync resp).confidence ∧ (analyze_damage_sync resp).confidence ≤ 1 := by
  cases resp with
  | httpError status text => simp [analyze_damage_sync]
  | exn msg => simp [analyze_damage_sync]
  | ok d =>
    cases hcv : d.confidence with
    | num q => simpa [analyze_damage_sync, hcv] using clampUnit_unit q
    | nonNumeric => simp [analyze_damage_sync, hcv]
    | absent => simpa [analyze_damage_sync, hcv] using clampUnit_unit 0

theorem validate_names_confidence_unit (pn cn ln kn : Option String) :
    0 ≤ (validate_names pn cn ln kn).confidence ∧ (validate_names pn cn ln kn).confidence ≤ 1 := by
  unfold validate_names
  by_cases h : (presentNames pn cn ln kn).length < 2
  · rw [if_pos h]; norm_num
  · rw [if_neg h]
    exact listMean_unit _ (fun x hx => by
      obtain ⟨pr, hpr, hre⟩ := List.mem_map.mp hx
      rw [← hre]; exact name_similarity_unit _ _)

theorem validate_vehicle_confidence_unit (p : Option ExtractedPolicyData)
    (c : Option ExtractedClaimFormData) :
    0 ≤ (validate_vehicle p c).confidence ∧ (validate_vehicle p c).confidence ≤ 1 := by
  cases p with
  | none => simp [validate_vehicle]
  | some pd =>
    cases c with
    | none => simp [validate_vehicle]
    | some cd => exact boolMean_unit (vehicleChecks pd cd)

theorem validate_dates_confidence_unit (p : Option ExtractedPolicyData)
    (c : Option ExtractedClaimFormData) (l : Option ExtractedLicenseData) (now : Date) :
    0 ≤ (validate_dates p c l now).confidence ∧ (validate_dates p c l now).confidence ≤ 1 :=
  boolMean_unit (dateChecks p c l now)

theorem analyze_multiple_confidence_unit (images : List VisionImage)
    (r : DamageDetectionResult) (h : analyze_multiple_images images = Except.ok r) :
    0 ≤ r.confidence ∧ r.confidence ≤ 1 := by
  unfold analyze_multiple_images at h
  by_cases hl : images.length = 0
  · rw [if_pos hl] at h; exact absurd h (by simp)
  · rw [if_neg hl] at h
    have h2 : r.confidence =
        listMean (((images.map (fun im => analyze_damage_sync im.response)).filter
          (·.success)).map (·.confidence)) := by
      rw [← Except.ok.inj h]
      show listMean (((images.map (fun im => analyze_damage_sync im.response)).foldl aggStep
        ⟨[], [], [], [], []⟩).confidences) = _
      rw [(foldl_aggStep _ _).2.2.2.1]
      simp
    rw [h2]
    refine listMean_unit _ (fun x hx => ?_)
    obtain ⟨o, ho, hoe⟩ := List.mem_map.mp hx
    obtain ⟨im, _, hime⟩ := List.mem_map.mp (List.mem_of_mem_filter ho)
    rw [← hoe, ← hime]
    exact analyze_damage_sync_unit im.response

theorem damageValidationOf_cases (c : Option ExtractedClaimFormData)
    (images : List ClaimImage) :
    damageValidationOf c images = none ∨
    ∃ r, damageValidationOf c images = some r ∧
      analyze_multiple_images ((images.filter (·.readable)).map (·.image)) = Except.ok r := by
  by_cases h1 : images ≠ [] ∧ c.isSome
  · by_cases h2 : (images.filter (·.readable)).map (·.image) ≠ []
    · have hval : damageValidationOf c images =
          match analyze_multiple_images ((images.filter (·.readable)).map (·.image)) with
          | Except.ok r => some r
          | Except.error _ => none := by
        unfold damageValidationOf
        rw [if_pos h1, if_pos h2]
      cases hm : analyze_multiple_images ((images.filter (·.readable)).map (·.image)) with
      | ok r =>
        right
        refine ⟨r, ?_, rfl⟩
        rw [hval, hm]
      | error e =>
        left
        rw [hval, hm]
    · left
      unfold damageValidationOf
      rw [if_pos h1, if_neg h2]
  · left
    unfold damageValidationOf
    rw [if_neg h1]

theorem validateClaimCore_fields (p : Option ExtractedPolicyData)
    (c : Option ExtractedClaimFormData) (l : Option ExtractedLicenseData)
    (k : Option ExtractedKYCData) (images : List ClaimImage) (now : Date) :
    (validateClaimCore p c l k images now).name_validation =
      validate_names (p.bind (·.insured_name)) (c.bind (·.insured_name)) none (k.bind (·.name)) ∧
    (validateClaimCore p c l k images now).vehicle_validation = validate_vehicle p c ∧
    (validateClaimCore p c l k images now).date_validation = validate_dates p c l now ∧
    (validateClaimCore p c l k images now).damage_validation = damageValidationOf c images ∧
    (validateClaimCore p c l k images now).overall_valid =
      ((validationEntries
        (validate_names (p.bind (·.insured_name)) (c.bind (·.insured_name)) none (k.bind (·.name)))
        (validate_vehicle p c) (validate_dates p c l now)
        (damageValidationOf c images)).filterMap Prod.fst).all (fun b => b) ∧
    (validateClaimCore p c l k images now).overall_confidence =
      (if validationEntries
          (validate_names (p.bind (·.insured_name)) (c.bind (·.insured_name)) none (k.bind (·.name)))
          (validate_vehicle p c) (validate_dates p c l now) (damageValidationOf c images) = []
       then (0 : Rat)
       else ((validationEntries
          (validate_names (p.bind (·.insured_name)) (c.bind (·.insured_name)) none (k.bind (·.name)))
          (validate_vehicle p c) (validate_dates p c l now)
          (damageValidationOf c images)).map Prod.snd).sum /
        ((validationEntries
          (validate_names (p.bind (·.insured_name)) (c.bind (·.insured_name)) none (k.bind (·.name)))
          (validate_vehicle p c) (validate_dates p c l now)
          (damageValidationOf c images)).length : Rat)) :=
  ⟨rfl, rfl, rfl, rfl, rfl, rfl⟩

theorem validateClaimCore_confidence_unit (p : Option ExtractedPolicyData)
    (c : Option ExtractedClaimFormData) (l : Option ExtractedLicenseData)
    (k : Option ExtractedKYCData) (images : List ClaimImage) (now : Date) :
    0 ≤ (validateClaimCore p c l k images now).overall_confidence ∧
    (validateClaimCore p c l k images now).overall_confidence ≤ 1 := by
  obtain ⟨-, -, -, -, -, hoc⟩ := validateClaimCore_fields p c l k images now
  rw [hoc]
  have hb1 := validate_names_confidence_unit (p.bind (·.insured_name))
    (c.bind (·.insured_name)) none (k.bind (·.name))
  have hb2 := validate_vehicle_confidence_unit p c
  have hb3 := validate_dates_confidence_unit p c l now
  rcases damageValidationOf_cases c images with hd | ⟨r, hd, hok⟩
  · rw [hd]
    simp only [validationEntries, List.append_nil, List.map_cons, List.map_nil, List.sum_cons,
      List.sum_nil, List.length_cons, List.length_nil]
    rw [if_neg (by simp)]
    constructor
    · apply div_nonneg _ (by norm_num)
      linarith [hb1.1, hb2.1, hb3.1]
    · rw [div_le_one (by norm_num)]
      push_cast
      linarith [hb1.2, hb2.2, hb3.2]
  · rw [hd]
    have hb4 := analyze_multiple_confidence_unit _ r hok
    simp only [validationEntries, List.map_append, List.map_cons, List.map_nil, List.sum_append,
      List.sum_cons, List.sum_nil, List.length_append, List.length_cons, List.length_nil]
    rw [if_neg (by simp)]
    constructor
    · apply div_nonneg _ (by norm_num)
      linarith [hb1.1, hb2.1, hb3.1, hb4.1]
    · rw [div_le_one (by norm_num)]
      push_cast
      linarith [hb1.2, hb2.2, hb3.2, hb4.2]

theorem missing_subset_mismatches (p : Option ExtractedPolicyData)
    (c : Option ExtractedClaimFormData) (l : Option ExtractedLicenseData) (now : Date)
    (s : String) (hs : s ∈ missingDateStrings p c l) :
    s ∈ dateMismatchList (validate_dates p c l now) := by
  have hsub : s ∈ dateMismatches p c l now := by
    unfold dateMismatches
    exact List.mem_append_left _ (List.mem_append_left _ (List.mem_append_left _ hs))
  have hne : dateMismatches p c l now ≠ [] := List.ne_nil_of_mem hsub
  have hm : (validate_dates p c l now).mismatches = some (dateMismatches p c l now) := by
    show (if dateMismatches p c l now = [] then none else some (dateMismatches p c l now)) = _
    rw [if_neg hne]
  unfold dateMismatchList
  rw [hm]
  exact hsub

/-- Claim C1 (counterexample): a present but unparseable date string does NOT
    append a missing-date string.  With `policy_start_date = "garbage"`
    (non-empty, fails every format) and a parseable expiry, the date result
    has no mismatch entries at all, contradicting the claim that an
    unparseable date field appends "Policy start date is missing". -/
theorem unparseable_date_no_missing_entry :
    strTruthy (some "garbage") = true ∧
    parseDate "garbage" = none ∧
    (validate_dates
      (some { policy_start_date := some "garbage", policy_expiry_date := some "2023-12-31" })
      none none ⟨2024, 1, 1⟩).mismatches = none ∧
    "Policy start date is missing" ∉
      dateMismatchList (validate_dates
        (some { policy_start_date := some "garbage", policy_expiry_date := some "2023-12-31" })
        none none ⟨2024, 1, 1⟩) := by
  refine ⟨rfl, by decide, by decide, by decide⟩

/-- Claim C1 (amended): for each present field-set, an expected date field
    that is absent (None or empty, i.e. falsy) appends its descriptive
    missing-date string — and only then; a present unparseable string
    appends nothing in Step 1.  Every Step-1 string reaches the result's
    mismatches. -/
theorem missing_date_strings_iff_absent (policy_data : Option ExtractedPolicyData)
    (claim_form_data : Option ExtractedClaimFormData)
    (license_data : Option ExtractedLicenseData) (current_date : Date) :
    ("Policy start date is missing" ∈ missingDateStrings policy_data claim_form_data license_data ↔
      ∃ pd, policy_data = some pd ∧ strTruthy pd.policy_start_date = false) ∧
    ("Policy expiry date is missing" ∈ missingDateStrings policy_data claim_form_data license_data ↔
      ∃ pd, policy_data = some pd ∧ strTruthy pd.policy_expiry_date = false) ∧
    ("Accident date is missing" ∈ missingDateStrings policy_data claim_form_data license_data ↔
      ∃ cd, claim_form_data = some cd ∧ strTruthy cd.accident_date = false) ∧
    ("Claim submission date is missing" ∈ missingDateStrings policy_data claim_form_data license_data ↔
      ∃ cd, claim_form_data = some cd ∧ strTruthy cd.claim_submission_date = false) ∧
    ("License expiry date is missing" ∈ missingDateStrings policy_data claim_form_data license_data ↔
      ∃ ld, license_data = some ld ∧ strTruthy ld.expiry_date = false) ∧
    (∀ s ∈ missingDateStrings policy_data claim_form_data license_data,
      s ∈ dateMismatchList (validate_dates policy_data claim_form_data license_data current_date)) := by
  refine ⟨?_, ?_, ?_, ?_, ?_, fun s hs => missing_subset_mismatches _ _ _ _ s hs⟩ <;>
  · cases policy_data <;> cases claim_form_data <;> cases license_data <;>
      simp only [missingDateStrings, List.mem_append, List.mem_singleton, List.not_mem_nil,
        List.append_nil, List.nil_append] <;>
      (try split_ifs) <;> simp_all

/-- Claim C1 (witness): a policy field-set with an absent start date yields
    the "Policy start date is missing" entry in the result's mismatches. -/
theorem missing_date_strings_iff_absent_witness :
    strTruthy (({} : ExtractedPolicyData).policy_start_date) = false ∧
    "Policy start date is missing" ∈
      dateMismatchList (validate_dates (some {}) none none ⟨2024, 1, 1⟩) := by
  have h := missing_date_strings_iff_absent (some {}) none none ⟨2024, 1, 1⟩
  exact ⟨rfl, h.2.2.2.2.2 _ (h.1.mpr ⟨{}, rfl, rfl⟩)⟩

/-- Claim C6: when the policy data or the claim-form data (or both) is
    absent, the vehicle validator returns is_valid = false, confidence = 0.0
    and the missing-data message, with every comparison field none and no
    mismatches — no partial checks, whatever the present document holds. -/
theorem vehicle_missing_data_result (policy_data : Option ExtractedPolicyData)
    (claim_form_data : Option ExtractedClaimFormData)
    (h : policy_data = none ∨ claim_form_data = none) :
    validate_vehicle policy_data claim_form_data =
      { is_valid := false
        confidence := 0
        registration_match := none
        chassis_match := none
        engine_match := none
        make_model_match := none
        mismatches := none
        message := "Missing policy or claim form data for vehicle validation" } := by
  rcases h with h | h
  · subst h; cases claim_form_data <;> rfl
  · subst h; cases policy_data <;> rfl

/-- Claim C6 (witness): absent policy data with a present claim form. -/
theorem vehicle_missing_data_result_witness :
    ((none : Option ExtractedPolicyData) = none ∨
      (some ({} : ExtractedClaimFormData) : Option ExtractedClaimFormData) = none) ∧
    (validate_vehicle none (some {})).is_valid = false ∧
    (validate_vehicle none (some {})).confidence = 0 := by
  have h := vehicle_missing_data_result none (some {}) (Or.inl rfl)
  exact ⟨Or.inl rfl, by rw [h], by rw [h]⟩

/-- Claim C7: with fewer than two present names (license name never counted),
    validate_names returns immediately with is_valid = false, confidence = 0
    and the insufficiency message, independent of name content; the license
    argument never influences the result. -/
theorem insufficient_names_result (policy_name claim_form_name license_name kyc_name :
    Option String) (h : (presentNames policy_name claim_form_name license_name kyc_name).length < 2) :
    validate_names policy_name claim_form_name license_name kyc_name =
      { is_valid := false
        confidence := 0
        matched_names := []
        mismatches := none
        message := "Insufficient documents for name validation" } ∧
    (∀ other : Option String,
      validate_names policy_name claim_form_name other kyc_name =
        validate_names policy_name claim_form_name license_name kyc_name) := by
  constructor
  · unfold validate_names
    rw [if_pos h]
  · intro other; rfl

/-- Claim C7 (witness): a single present name, with non-trivial content. -/
theorem insufficient_names_result_witness :
    (presentNames (some "John Smith") none (some "Ignored License Name") none).length < 2 ∧
    (validate_names (some "John Smith") none (some "Ignored License Name") none).is_valid = false ∧
    (validate_names (some "John Smith") none (some "Ignored License Name") none).confidence = 0 := by
  have h := insufficient_names_result (some "John Smith") none (some "Ignored License Name") none
    (by decide)
  exact ⟨by decide, by rw [h.1], by rw [h.1]⟩

theorem validate_dates_check_fields (p : Option ExtractedPolicyData)
    (c : Option ExtractedClaimFormData) (l : Option ExtractedLicenseData) (now : Date) :
    (validate_dates p c l now).policy_date_check =
      (policyRuleEval p.isSome (parsedPolicyStart p) (parsedPolicyExpiry p)
        (parsedAccident c)).1 ∧
    (validate_dates p c l now).claim_date_check =
      (claimRuleEval (parsedAccident c) (parsedClaimSubmission c) now).1 ∧
    (validate_dates p c l now).license_expiry_check =
      (licenseRuleEval (parsedAccident c) (parsedLicenseExpiry l)).1 :=
  ⟨rfl, rfl, rfl⟩

theorem policyRuleEval_missing (ps pe ad : Option Date)
    (h : ps = none ∨ pe = none ∨ ad = none) :
    (policyRuleEval true ps pe ad).1 = some false ∧ (policyRuleEval true ps pe ad).2.1 = [] := by
  rcases ps with _ | vps <;> rcases pe with _ | vpe <;> rcases ad with _ | vad <;>
    simp_all [policyRuleEval]

theorem claimRuleEval_missing (ad cs : Option Date) (now : Date)
    (h : ad = none ∨ cs = none) :
    (claimRuleEval ad cs now).1 = none ∧ (claimRuleEval ad cs now).2.1 = [] := by
  rcases ad with _ | vad <;> rcases cs with _ | vcs <;> simp_all [claimRuleEval]

theorem licenseRuleEval_missing (ad le : Option Date)
    (h : ad = none ∨ le = none) :
    (licenseRuleEval ad le).1 = none ∧ (licenseRuleEval ad le).2.1 = [] := by
  rcases ad with _ | vad <;> rcases le with _ | vle <;> simp_all [licenseRuleEval]

/-- Claim C2: when a rule's required dates did not all parse, the policy
    rule's result is forced to `some false` as soon as the policy document
    exists, while the claim and license rules stay `none`; in every such
    case the rule contributes no boolean to `checks`.  In particular a claim
    form with a parsed accident date but an absent submission date yields
    `claim_date_check = none` together with the "Claim submission date is
    missing" mismatch entry. -/
theorem rule_fields_on_missing_dates (policy_data : Option ExtractedPolicyData)
    (claim_form_data : Option ExtractedClaimFormData)
    (license_data : Option ExtractedLicenseData) (current_date : Date) :
    (policy_data.isSome →
      (parsedPolicyStart policy_data = none ∨ parsedPolicyExpiry policy_data = none ∨
        parsedAccident claim_form_data = none) →
      (validate_dates policy_data claim_form_data license_data current_date).policy_date_check =
        some false ∧
      (policyRuleEval policy_data.isSome (parsedPolicyStart policy_data)
        (parsedPolicyExpiry policy_data) (parsedAccident claim_form_data)).2.1 = []) ∧
    ((parsedAccident claim_form_data = none ∨ parsedClaimSubmission claim_form_data = none) →
      (validate_dates policy_data claim_form_data license_data current_date).claim_date_check =
        none ∧
      (claimRuleEval (parsedAccident claim_form_data) (parsedClaimSubmission claim_form_data)
        current_date).2.1 = []) ∧
    ((parsedAccident claim_form_data = none ∨ parsedLicenseExpiry license_data = none) →
      (validate_dates policy_data claim_form_data license_data current_date).license_expiry_check =
        none ∧
      (licenseRuleEval (parsedAccident claim_form_data) (parsedLicenseExpiry license_data)).2.1 =
        []) ∧
    (∀ cd, claim_form_data = some cd → strTruthy cd.claim_submission_date = false →
      (validate_dates policy_data claim_form_data license_data current_date).claim_date_check =
        none ∧
      "Claim submission date is missing" ∈
        dateMismatchList (validate_dates policy_data claim_form_data license_data current_date)) := by
  obtain ⟨hf1, hf2, hf3⟩ := validate_dates_check_fields policy_data claim_form_data
    license_data current_date
  refine ⟨?_, ?_, ?_, ?_⟩
  · intro hp hmiss
    rw [hf1, hp]
    exact policyRuleEval_missing _ _ _ hmiss
  · intro hmiss
    rw [hf2]
    exact claimRuleEval_missing _ _ _ hmiss
  · intro hmiss
    rw [hf3]
    exact licenseRuleEval_missing _ _ hmiss
  · intro cd hcd habs
    have hsub : parsedClaimSubmission claim_form_data = none := by
      subst hcd
      simp [parsedClaimSubmission, habs]
    constructor
    · rw [hf2]
      exact (claimRuleEval_missing _ _ _ (Or.inr hsub)).1
    · refine missing_subset_mismatches _ _ _ _ _ ?_
      subst hcd
      simp [missingDateStrings, habs]

/-- Claim C2 (witness): policy with missing expiry, claim form with parsed
    accident date and missing submission date, license with missing expiry. -/
theorem rule_fields_on_missing_dates_witness :
    (validate_dates (some { policy_start_date := some "2023-01-01" })
      (some { accident_date := some "2023-06-15" }) (some {}) ⟨2024, 1, 1⟩).policy_date_check =
      some false ∧
    (validate_dates (some { policy_start_date := some "2023-01-01" })
      (some { accident_date := some "2023-06-15" }) (some {}) ⟨2024, 1, 1⟩).claim_date_check =
      none ∧
    (validate_dates (some { policy_start_date := some "2023-01-01" })
      (some { accident_date := some "2023-06-15" }) (some {}) ⟨2024, 1, 1⟩).license_expiry_check =
      none ∧
    "Claim submission date is missing" ∈
      dateMismatchList (validate_dates (some { policy_start_date := some "2023-01-01" })
        (some { accident_date := some "2023-06-15" }) (some {}) ⟨2024, 1, 1⟩) := by
  have h := rule_fields_on_missing_dates (some { policy_start_date := some "2023-01-01" })
    (some { accident_date := some "2023-06-15" }) (some {}) ⟨2024, 1, 1⟩
  exact ⟨(h.1 rfl (Or.inr (Or.inl (by decide)))).1,
    (h.2.1 (Or.inr (by decide))).1,
    (h.2.2.1 (Or.inr (by decide))).1,
    (h.2.2.2 _ rfl rfl).2⟩

theorem valid_flag_iff (M : List String) (C : Rat) :
    (decide (M = []) && decide (C ≥ 8/10)) = true ↔
      ((if M = [] then (none : Option (List String)) else some M) = none ∧ 8/10 ≤ C) := by
  by_cases hM : M = [] <;> simp [hM, ge_iff_le]

/-- Claim C8: with both documents present, make_model_match is `some true`
    exactly when the policy's make and model are both truthy (no
    cross-document comparison; it then contributes `true` to `checks`),
    otherwise `none`; chassis_match and engine_match are `none` on every
    input; confidence is the mean of the collected checks (0 when none);
    is_valid holds iff mismatches is empty and confidence is at least 0.8. -/
theorem vehicle_checks_semantics (pd : ExtractedPolicyData) (cd : ExtractedClaimFormData) :
    ((strTruthy pd.make && strTruthy pd.model) = true →
      (validate_vehicle (some pd) (some cd)).make_model_match = some true ∧
      true ∈ vehicleChecks pd cd) ∧
    ((strTruthy pd.make && strTruthy pd.model) = false →
      (validate_vehicle (some pd) (some cd)).make_model_match = none) ∧
    (∀ p : Option ExtractedPolicyData, ∀ c : Option ExtractedClaimFormData,
      (validate_vehicle p c).chassis_match = none ∧ (validate_vehicle p c).engine_match = none) ∧
    (validate_vehicle (some pd) (some cd)).confidence =
      (if vehicleChecks pd cd = [] then (0 : Rat)
       else (boolSum (vehicleChecks pd cd) : Rat) / ((vehicleChecks pd cd).length : Rat)) ∧
    ((validate_vehicle (some pd) (some cd)).is_valid = true ↔
      (validate_vehicle (some pd) (some cd)).mismatches = none ∧
      8/10 ≤ (validate_vehicle (some pd) (some cd)).confidence) := by
  refine ⟨?_, ?_, ?_, rfl, ?_⟩
  · intro h
    constructor
    · show (if strTruthy pd.make && strTruthy pd.model then some true else none) = some true
      rw [if_pos h]
    · simp [vehicleChecks, h]
  · intro h
    show (if strTruthy pd.make && strTruthy pd.model then some true else none) = none
    rw [if_neg (by simp [h])]
  · intro p c
    cases p <;> cases c <;> exact ⟨rfl, rfl⟩
  · exact valid_flag_iff (vehicleMismatches pd cd)
      (if vehicleChecks pd cd = [] then (0 : Rat)
       else (boolSum (vehicleChecks pd cd) : Rat) / ((vehicleChecks pd cd).length : Rat))

/-- Claim C8 (witness): policy with make and model, no registrations. -/
theorem vehicle_checks_semantics_witness :
    (strTruthy ({ make := some "Honda", model := some "City" } : ExtractedPolicyData).make &&
      strTruthy ({ make := some "Honda", model := some "City" } : ExtractedPolicyData).model) =
      true ∧
    (validate_vehicle (some { make := some "Honda", model := some "City" })
      (some {})).make_model_match = some true ∧
    (validate_vehicle (some { make := some "Honda", model := some "City" })
      (some {})).confidence = 1 := by
  have h := vehicle_checks_semantics ({ make := some "Honda", model := some "City" }) ({})
  refine ⟨rfl, (h.1 rfl).1, ?_⟩
  rw [h.2.2.2.1]
  have hc : vehicleChecks ({ make := some "Honda", model := some "City" } : ExtractedPolicyData)
      ({} : ExtractedClaimFormData) = [true] := by decide
  rw [hc, if_neg (by simp)]
  have hb : boolSum [true] = 1 := by decide
  rw [hb]
  norm_num

theorem any_map_id {α : Type} (f : α → Bool) (l : List α) :
    (l.map f).any (fun b => b) = l.any f := by
  induction l with
  | nil => rfl
  | cons x t ih => simp [List.any_cons, ih]

/-- Claim C3: for a non-empty batch the aggregation never raises; every
    failed image (HTTP error, timeout/exception, malformed reply) is
    excluded; the confidence is the arithmetic mean of the successful
    outcomes' confidences; matches_description is their logical OR; and when
    every image fails the result is the empty DamageResult with confidence 0
    and matches_description false. -/
theorem damage_aggregation_of_successes (images : List VisionImage) (h : images ≠ []) :
    ∃ r, analyze_multiple_images images = Except.ok r ∧
      r.confidence = listMean (((images.map (fun im => analyze_damage_sync im.response)).filter
        (·.success)).map (·.confidence)) ∧
      r.matches_description = ((images.map (fun im => analyze_damage_sync im.response)).filter
        (·.success)).any (fun o => o.data.matches_description.getD false) ∧
      ((images.map (fun im => analyze_damage_sync im.response)).filter (·.success) = [] →
        r = { detected_damage := [], damage_locations := [], confidence := 0,
              matches_description := false, likely_damaged_parts := [],
              unlikely_damaged_parts := none }) := by
  obtain ⟨d1, d2, d3, d4, d5⟩ :=
    foldl_aggStep (images.map (fun im => analyze_damage_sync im.response)) ⟨[], [], [], [], []⟩
  unfold analyze_multiple_images
  rw [if_neg (by simpa using h)]
  refine ⟨_, rfl, ?_, ?_, ?_⟩
  · show listMean (((images.map (fun im => analyze_damage_sync im.response)).foldl aggStep
      ⟨[], [], [], [], []⟩).confidences) = _
    rw [d4]
    simp
  · show (((images.map (fun im => analyze_damage_sync im.response)).foldl aggStep
      ⟨[], [], [], [], []⟩).matchFlags).any (fun b => b) = _
    rw [d5]
    simp only [List.nil_append]
    exact any_map_id _ _
  · intro hempty
    rw [hempty] at d1 d2 d3 d4 d5
    simp only [List.nil_append, List.flatMap_nil, List.map_nil] at d1 d2 d3 d4 d5
    have hall : (images.map (fun im => analyze_damage_sync im.response)).foldl aggStep
        (⟨[], [], [], [], []⟩ : AggState) = ⟨[], [], [], [], []⟩ := by
      cases hfv : (images.map (fun im => analyze_damage_sync im.response)).foldl aggStep
          (⟨[], [], [], [], []⟩ : AggState) with
      | mk a b c dd e =>
        rw [hfv] at d1 d2 d3 d4 d5
        simp only [] at d1 d2 d3 d4 d5
        simp_all
    rw [hall]
    simp [listMean]

/-- Claim C3 (witness): two successes with confidences 0.6 and 0.8 plus one
    timed-out image give mean confidence exactly 0.7 and an OR-true match
    (image fields: response, angle; data fields: detected damage, locations,
    parts, match flag, confidence). -/
theorem damage_aggregation_witness :
    ([⟨AnalyzerResponse.ok ⟨none, none, none, some true, ConfVal.num (6/10)⟩, none⟩,
      ⟨AnalyzerResponse.ok ⟨none, none, none, some false, ConfVal.num (8/10)⟩, none⟩,
      ⟨AnalyzerResponse.exn "timed out", none⟩] : List VisionImage) ≠ [] ∧
    ∃ r, analyze_multiple_images
        [⟨AnalyzerResponse.ok ⟨none, none, none, some true, ConfVal.num (6/10)⟩, none⟩,
         ⟨AnalyzerResponse.ok ⟨none, none, none, some false, ConfVal.num (8/10)⟩, none⟩,
         ⟨AnalyzerResponse.exn "timed out", none⟩] = Except.ok r ∧
      r.confidence = 7/10 ∧ r.matches_description = true := by
  obtain ⟨r, hok, hconf, hmatch, -⟩ := damage_aggregation_of_successes
    [⟨AnalyzerResponse.ok ⟨none, none, none, some true, ConfVal.num (6/10)⟩, none⟩,
     ⟨AnalyzerResponse.ok ⟨none, none, none, some false, ConfVal.num (8/10)⟩, none⟩,
     ⟨AnalyzerResponse.exn "timed out", none⟩] (by simp)
  refine ⟨by simp, r, hok, ?_, ?_⟩
  · rw [hconf]
    simp only [List.map_cons, List.map_nil, analyze_damage_sync, List.filter_cons,
      List.filter_nil]
    norm_num [listMean, clampUnit]
    simp
  · rw [hmatch]
    simp [analyze_damage_sync]

/-- Claim C4: overall_valid is the logical AND of the is_valid of every
    present sub-result — the damage result carries no is_valid attribute
    (in the code schema as in the spec data model), so the conjunction
    ranges over the three field validators whether 3 or 4 sub-results are
    present; overall_confidence is the arithmetic mean of the confidences of
    exactly the present sub-results (3 without a damage result, 4 with one);
    with no images the damage field is none (not a placeholder) and the mean
    is over exactly the three field-validator results. -/
theorem orchestrator_overall_aggregation (policy_data : Option ExtractedPolicyData)
    (claim_form_data : Option ExtractedClaimFormData)
    (license_data : Option ExtractedLicenseData) (kyc_data : Option ExtractedKYCData)
    (images : List ClaimImage) (current_date : Date) :
    (validateClaimCore policy_data claim_form_data license_data kyc_data images
        current_date).overall_valid =
      ((validateClaimCore policy_data claim_form_data license_data kyc_data images
          current_date).name_validation.is_valid &&
       (validateClaimCore policy_data claim_form_data license_data kyc_data images
          current_date).vehicle_validation.is_valid &&
       (validateClaimCore policy_data claim_form_data license_data kyc_data images
          current_date).date_validation.is_valid) ∧
    ((validateClaimCore policy_data claim_form_data license_data kyc_data images
        current_date).damage_validation = none →
      (validateClaimCore policy_data claim_form_data license_data kyc_data images
          current_date).overall_confidence =
        ((validateClaimCore policy_data claim_form_data license_data kyc_data images
            current_date).name_validation.confidence +
         (validateClaimCore policy_data claim_form_data license_data kyc_data images
            current_date).vehicle_validation.confidence +
         (validateClaimCore policy_data claim_form_data license_data kyc_data images
            current_date).date_validation.confidence) / 3) ∧
    (∀ dm, (validateClaimCore policy_data claim_form_data license_data kyc_data images
        current_date).damage_validation = some dm →
      (validateClaimCore policy_data claim_form_data license_data kyc_data images
          current_date).overall_confidence =
        ((validateClaimCore policy_data claim_form_data license_data kyc_data images
            current_date).name_validation.confidence +
         (validateClaimCore policy_data claim_form_data license_data kyc_data images
            current_date).vehicle_validation.confidence +
         (validateClaimCore policy_data claim_form_data license_data kyc_data images
            current_date).date_validation.confidence + dm.confidence) / 4) ∧
    (images = [] →
      (validateClaimCore policy_data claim_form_data license_data kyc_data images
        current_date).damage_validation = none) := by
  obtain ⟨hn, hv, hd, hdm, hov, hoc⟩ := validateClaimCore_fields policy_data claim_form_data
    license_data kyc_data images current_date
  refine ⟨?_, ?_, ?_, ?_⟩
  · rw [hov, hn, hv, hd]
    cases hcase : damageValidationOf claim_form_data images <;>
      simp [validationEntries, Bool.and_assoc]
  · intro h0
    rw [hdm] at h0
    rw [hoc, hn, hv, hd, h0]
    simp only [validationEntries, List.append_nil, List.map_cons, List.map_nil, List.sum_cons,
      List.sum_nil, List.length_cons, List.length_nil]
    rw [if_neg (by simp)]
    push_cast
    ring_nf
  · intro dm h0
    rw [hdm] at h0
    rw [hoc, hn, hv, hd, h0]
    simp only [validationEntries, List.map_append, List.map_cons, List.map_nil, List.sum_append,
      List.sum_cons, List.sum_nil, List.length_append, List.length_cons, List.length_nil]
    rw [if_neg (by simp)]
    push_cast
    ring_nf
  · intro h0
    rw [hdm]
    unfold damageValidationOf
    rw [if_neg (by simp [h0])]

/-- Claim C4 (witness): no documents and no images — the damage field is
    absent and the overall confidence averages the three field validators. -/
theorem orchestrator_overall_aggregation_witness :
    (validateClaimCore none none none none [] ⟨2024, 1, 1⟩).damage_validation = none ∧
    (validateClaimCore none none none none [] ⟨2024, 1, 1⟩).overall_confidence =
      ((validateClaimCore none none none none [] ⟨2024, 1, 1⟩).name_validation.confidence +
       (validateClaimCore none none none none [] ⟨2024, 1, 1⟩).vehicle_validation.confidence +
       (validateClaimCore none none none none [] ⟨2024, 1, 1⟩).date_validation.confidence) / 3 := by
  have h := orchestrator_overall_aggregation none none none none [] ⟨2024, 1, 1⟩
  have hnone := h.2.2.2 rfl
  exact ⟨hnone, h.2.1 hnone⟩

theorem validate_names_pos_fields (pn cn ln kn : Option String)
    (h : ¬ (presentNames pn cn ln kn).length < 2) :
    (validate_names pn cn ln kn).matched_names =
      (matchedNamesRaw (presentNames pn cn ln kn)).dedup ∧
    (validate_names pn cn ln kn).mismatches =
      (if nameMismatches (presentNames pn cn ln kn) = [] then none
       else some (nameMismatches (presentNames pn cn ln kn))) ∧
    (validate_names pn cn ln kn).confidence =
      listMean (nameSimilarities (presentNames pn cn ln kn)) ∧
    (validate_names pn cn ln kn).is_valid =
      (decide (listMean (nameSimilarities (presentNames pn cn ln kn)) ≥ 8/10) &&
       decide ((nameMismatches (presentNames pn cn ln kn)).length = 0)) := by
  unfold validate_names
  rw [if_neg h]
  exact ⟨rfl, rfl, rfl, rfl⟩

/-- Claim C5: for at least two present names, each pair with similarity at
    or above 0.85 records both labeled names in matched_names; each pair
    below 0.70 records a formatted entry in mismatches; membership in either
    list is exactly the contribution of such pairs (so grey-zone pairs in
    [0.70, 0.85) contribute to neither); confidence is the arithmetic mean
    of all pairwise ratios; is_valid holds iff confidence is at least 0.80
    and mismatches is empty. -/
theorem name_pairwise_classification (pn cn ln kn : Option String)
    (h : 2 ≤ (presentNames pn cn ln kn).length) :
    (∀ pr ∈ namePairs (presentNames pn cn ln kn),
      (85/100 ≤ name_similarity pr.1.2 pr.2.2 →
        matchEntry pr.1 ∈ (validate_names pn cn ln kn).matched_names ∧
        matchEntry pr.2 ∈ (validate_names pn cn ln kn).matched_names) ∧
      (name_similarity pr.1.2 pr.2.2 < 7/10 →
        nameMismatchEntry pr ∈ (validate_names pn cn ln kn).mismatches.getD [])) ∧
    (∀ s, s ∈ (validate_names pn cn ln kn).matched_names ↔
      ∃ pr ∈ namePairs (presentNames pn cn ln kn),
        85/100 ≤ name_similarity pr.1.2 pr.2.2 ∧
        (s = matchEntry pr.1 ∨ s = matchEntry pr.2)) ∧
    (∀ s, s ∈ (validate_names pn cn ln kn).mismatches.getD [] ↔
      ∃ pr ∈ namePairs (presentNames pn cn ln kn),
        name_similarity pr.1.2 pr.2.2 < 7/10 ∧ s = nameMismatchEntry pr) ∧
    (validate_names pn cn ln kn).confidence =
      (nameSimilarities (presentNames pn cn ln kn)).sum /
        ((nameSimilarities (presentNames pn cn ln kn)).length : Rat) ∧
    ((validate_names pn cn ln kn).is_valid = true ↔
      8/10 ≤ (validate_names pn cn ln kn).confidence ∧
      (validate_names pn cn ln kn).mismatches.getD [] = []) := by
  have h2 : ¬ (presentNames pn cn ln kn).length < 2 := by omega
  obtain ⟨hm, hmm, hc, hv⟩ := validate_names_pos_fields pn cn ln kn h2
  have hmm2 : (validate_names pn cn ln kn).mismatches.getD [] =
      nameMismatches (presentNames pn cn ln kn) := by
    rw [hmm]
    by_cases he : nameMismatches (presentNames pn cn ln kn) = [] <;> simp [he]
  have hmemmat : ∀ s, s ∈ (validate_names pn cn ln kn).matched_names ↔
      ∃ pr ∈ namePairs (presentNames pn cn ln kn),
        85/100 ≤ name_similarity pr.1.2 pr.2.2 ∧
        (s = matchEntry pr.1 ∨ s = matchEntry pr.2) := by
    intro s
    rw [hm, List.mem_dedup]
    unfold matchedNamesRaw
    rw [List.mem_flatMap]
    apply exists_congr
    intro pr
    constructor
    · rintro ⟨hpr, hs⟩
      by_cases hcnd : name_similarity pr.1.2 pr.2.2 ≥ 85/100
      · rw [if_pos hcnd] at hs
        simp only [List.mem_cons, List.mem_singleton, List.not_mem_nil, or_false] at hs
        exact ⟨hpr, hcnd, hs⟩
      · rw [if_neg hcnd] at hs
        exact absurd hs (List.not_mem_nil s)
    · rintro ⟨hpr, hcnd, hs⟩
      refine ⟨hpr, ?_⟩
      rw [if_pos hcnd]
      rcases hs with hs | hs <;> simp [hs]
  have hmemmis : ∀ s, s ∈ (validate_names pn cn ln kn).mismatches.getD [] ↔
      ∃ pr ∈ namePairs (presentNames pn cn ln kn),
        name_similarity pr.1.2 pr.2.2 < 7/10 ∧ s = nameMismatchEntry pr := by
    intro s
    rw [hmm2]
    unfold nameMismatches
    rw [List.mem_filterMap]
    apply exists_congr
    intro pr
    constructor
    · rintro ⟨hpr, hs⟩
      by_cases hcnd : name_similarity pr.1.2 pr.2.2 ≥ 85/100
      · rw [if_pos hcnd] at hs
        exact absurd hs (by simp)
      · rw [if_neg hcnd] at hs
        by_cases hlow : name_similarity pr.1.2 pr.2.2 < 7/10
        · rw [if_pos hlow] at hs
          exact ⟨hpr, hlow, (Option.some.inj hs).symm⟩
        · rw [if_neg hlow] at hs
          exact absurd hs (by simp)
    · rintro ⟨hpr, hlow, hs⟩
      refine ⟨hpr, ?_⟩
      have hno : ¬ name_similarity pr.1.2 pr.2.2 ≥ 85/100 :=
        not_le.mpr (lt_of_lt_of_le hlow (by norm_num))
      rw [if_neg hno, if_pos hlow, hs]
  refine ⟨?_, hmemmat, hmemmis, ?_, ?_⟩
  · intro pr hpr
    constructor
    · intro hsim
      exact ⟨(hmemmat _).mpr ⟨pr, hpr, hsim, Or.inl rfl⟩,
        (hmemmat _).mpr ⟨pr, hpr, hsim, Or.inr rfl⟩⟩
    · intro hlow
      exact (hmemmis _).mpr ⟨pr, hpr, hlow, rfl⟩
  · rw [hc]
    unfold listMean
    rw [if_neg ?hne]
    case hne =>
      have hp := namePairs_ne_nil _ h
      unfold nameSimilarities
      simpa using hp
  · rw [hv, hc, hmm2]
    simp only [Bool.and_eq_true, decide_eq_true_eq, ge_iff_le, List.length_eq_zero]

/-- Claim C5 (witness): two identical present names form one pair with
    similarity 1 (at or above 0.85), so both labeled entries appear in
    matched_names. -/
theorem name_pairwise_classification_witness :
    2 ≤ (presentNames (some "jo") (some "jo") none none).length ∧
    "policy: jo" ∈ (validate_names (some "jo") (some "jo") none none).matched_names ∧
    "claim_form: jo" ∈ (validate_names (some "jo") (some "jo") none none).matched_names := by
  have h := name_pairwise_classification (some "jo") (some "jo") none none (by decide)
  have hpr : ((("policy", "jo"), ("claim_form", "jo")) :
      (String × String) × (String × String)) ∈
      namePairs (presentNames (some "jo") (some "jo") none none) := by decide
  have hsim : (85 : Rat)/100 ≤ name_similarity "jo" "jo" := by
    have hne : ¬("jo".data.isEmpty = true ∨ "jo".data.isEmpty = true) := by decide
    have hnorm : (normalize_name "jo").data = "jo".data := by decide
    have hmt : matchTotal "jo".data "jo".data = 2 := by decide
    have hlen : ("jo".data).length = 2 := by decide
    unfold name_similarity
    rw [if_neg hne, hnorm]
    unfold seqRatio
    rw [hlen, hmt]
    rw [if_neg (by norm_num)]
    push_cast
    norm_num
  exact ⟨by decide, ((h.1 _ hpr).1 hsim).1, ((h.1 _ hpr).1 hsim).2⟩

/-- Claim C9 (counterexample): a non-numeric per-image confidence is NOT
    clamped into [0,1] and fed to the aggregation mean — `float(...)` raises
    inside the per-image try block, so the image becomes a failure and is
    dropped wholesale: its reported damage and its true match flag vanish
    and the aggregate over this single image is the empty result. -/
theorem non_numeric_confidence_excluded :
    (analyze_damage_sync (AnalyzerResponse.ok
      ⟨some [⟨"front bumper", "moderate"⟩], none, none, some true,
        ConfVal.nonNumeric⟩)).success = false ∧
    analyze_multiple_images
      [⟨AnalyzerResponse.ok ⟨some [⟨"front bumper", "moderate"⟩], none, none, some true,
        ConfVal.nonNumeric⟩, none⟩] =
      Except.ok ⟨[], [], 0, false, [], none⟩ :=
  ⟨rfl, rfl⟩

/-- Claim C9 (amended): every confidence the engine produces lies in [0,1]:
    each field validator's (a mean of values in [0,1]), each per-image
    outcome's (an out-of-range numeric analyzer confidence is clamped into
    [0,1], an absent one defaults to 0.0, and a non-numeric one fails the
    image so that it is excluded from aggregation rather than clamped), the
    aggregate damage result's, and the orchestrator's overall confidence. -/
theorem confidence_unit_interval :
    (∀ pn cn ln kn : Option String,
      0 ≤ (validate_names pn cn ln kn).confidence ∧
      (validate_names pn cn ln kn).confidence ≤ 1) ∧
    (∀ (p : Option ExtractedPolicyData) (c : Option ExtractedClaimFormData),
      0 ≤ (validate_vehicle p c).confidence ∧ (validate_vehicle p c).confidence ≤ 1) ∧
    (∀ (p : Option ExtractedPolicyData) (c : Option ExtractedClaimFormData)
      (l : Option ExtractedLicenseData) (now : Date),
      0 ≤ (validate_dates p c l now).confidence ∧ (validate_dates p c l now).confidence ≤ 1) ∧
    (∀ resp : AnalyzerResponse,
      0 ≤ (analyze_damage_sync resp).confidence ∧ (analyze_damage_sync resp).confidence ≤ 1) ∧
    (∀ (d : AnalyzerData) (q : Rat), d.confidence = ConfVal.num q →
      (analyze_damage_sync (AnalyzerResponse.ok d)).confidence = clampUnit q) ∧
    (∀ d : AnalyzerData, d.confidence = ConfVal.absent →
      (analyze_damage_sync (AnalyzerResponse.ok d)).confidence = 0) ∧
    (∀ d : AnalyzerData, d.confidence = ConfVal.nonNumeric →
      (analyze_damage_sync (AnalyzerResponse.ok d)).success = false) ∧
    (∀ (images : List VisionImage) (r : DamageDetectionResult),
      analyze_multiple_images images = Except.ok r → 0 ≤ r.confidence ∧ r.confidence ≤ 1) ∧
    (∀ (p : Option ExtractedPolicyData) (c : Option ExtractedClaimFormData)
      (l : Option ExtractedLicenseData) (k : Option ExtractedKYCData)
      (images : List ClaimImage) (now : Date),
      0 ≤ (validateClaimCore p c l k images now).overall_confidence ∧
      (validateClaimCore p c l k images now).overall_confidence ≤ 1) := by
  refine ⟨validate_names_confidence_unit, validate_vehicle_confidence_unit,
    validate_dates_confidence_unit, analyze_damage_sync_unit, ?_, ?_, ?_,
    fun images r hr => analyze_multiple_confidence_unit images r hr,
    validateClaimCore_confidence_unit⟩
  · intro d q hq
    simp [analyze_damage_sync, hq]
  · intro d hq
    simp [analyze_damage_sync, hq, clampUnit]
  · intro d hq
    simp [analyze_damage_sync, hq]

/-- Claim C9 (witness): an out-of-range numeric confidence 1.5 is clamped
    to 1 by the per-image analysis. -/
theorem confidence_unit_interval_witness :
    (⟨none, none, none, none, ConfVal.num (3/2)⟩ : AnalyzerData).confidence =
      ConfVal.num (3/2) ∧
    (analyze_damage_sync (AnalyzerResponse.ok
      ⟨none, none, none, none, ConfVal.num (3/2)⟩)).confidence = 1 := by
  have h := confidence_unit_interval.2.2.2.2.1 ⟨none, none, none, none, ConfVal.num (3/2)⟩
    (3/2) rfl
  refine ⟨rfl, ?_⟩
  rw [h]
  unfold clampUnit
  rw [min_eq_left (by norm_num : (1 : Rat) ≤ 3/2), max_eq_right (by norm_num : (0 : Rat) ≤ 1)]

/-- Claim C10: calling the damage aggregator with an empty image list raises
    (`ThreadPoolExecutor` rejects the worker cap `min(0, 5) = 0`) instead of
    returning an empty DamageResult; every non-empty call returns a result;
    and the orchestrator invokes the aggregator only when the list of images
    with readable bytes is non-empty, in which case the call returns `ok`
    and its result becomes damage_validation. -/
theorem empty_image_list_raises :
    analyze_multiple_images [] = Except.error "max_workers must be greater than 0" ∧
    (∀ images : List VisionImage, images ≠ [] →
      ∃ r, analyze_multiple_images images = Except.ok r) ∧
    (∀ (p : Option ExtractedPolicyData) (c : Option ExtractedClaimFormData)
      (l : Option ExtractedLicenseData) (k : Option ExtractedKYCData)
      (images : List ClaimImage) (now : Date),
      images ≠ [] → c.isSome → (images.filter (·.readable)).map (·.image) ≠ [] →
      ∃ r, analyze_multiple_images ((images.filter (·.readable)).map (·.image)) =
          Except.ok r ∧
        (validateClaimCore p c l k images now).damage_validation = some r) := by
  have hok : ∀ images : List VisionImage, images ≠ [] →
      ∃ r, analyze_multiple_images images = Except.ok r := by
    intro images hne
    unfold analyze_multiple_images
    rw [if_neg (by simpa using hne)]
    exact ⟨_, rfl⟩
  refine ⟨rfl, hok, ?_⟩
  intro p c l k images now hne hc hwb
  obtain ⟨r, hr⟩ := hok _ hwb
  refine ⟨r, hr, ?_⟩
  obtain ⟨-, -, -, hdm, -, -⟩ := validateClaimCore_fields p c l k images now
  rw [hdm]
  unfold damageValidationOf
  rw [if_pos ⟨hne, hc⟩, if_pos hwb, hr]

/-- Claim C10 (witness): a single-image call returns a result. -/
theorem empty_image_list_raises_witness :
    ([⟨AnalyzerResponse.exn "boom", none⟩] : List VisionImage) ≠ [] ∧
    ∃ r, analyze_multiple_images [⟨AnalyzerResponse.exn "boom", none⟩] = Except.ok r :=
  ⟨by simp, empty_image_list_raises.2.1 _ (by simp)⟩
